import Mathlib

/-!
Verification of the rotating file-log writer in `log/file_rotate.go` of
coder-van/v-util (package `log`).

The Go code is shallowly embedded: the handler struct becomes a Lean
structure, and every external effect (clock, filesystem existence probes,
rename outcome, reopen outcome, underlying file-write result, directory
entries seen by the retention walk) is passed in explicitly as an
environment value.  Machine `int` counters are modelled as `Nat` (the code
only ever increments them and compares with `>=`/`>`), Unix timestamps as
`Int`.
-/

set_option autoImplicit false
set_option maxRecDepth 8000

namespace VLog

/-- Embedding of Go struct `RotateHandler` (file_rotate.go lines 21-38).
`openDate` stores `time.Now().Day()` as recorded at the last (re)open. -/
structure RotateHandler where
  FilePath : String
  MaxLines : Nat
  curLines : Nat
  MaxSize : Nat
  curSize : Nat
  MaxDays : Nat
  openDate : Nat
  Rotatable : Bool
deriving DecidableEq

/-- Embedding of `NewDefaultHandler` (lines 62-70): only the path is set,
`Rotatable` is false, every numeric field is Go's zero value. -/
def NewDefaultHandler (fp : String) : RotateHandler :=
  { FilePath := fp, MaxLines := 0, curLines := 0, MaxSize := 0, curSize := 0,
    MaxDays := 0, openDate := 0, Rotatable := false }

/-- Embedding of `NewDailyRotateHandler` (lines 72-81). -/
def NewDailyRotateHandler (fp : String) (days : Nat) : RotateHandler :=
  { FilePath := fp, MaxLines := 0, curLines := 0, MaxSize := 0, curSize := 0,
    MaxDays := days, openDate := 0, Rotatable := true }

/-- Embedding of `NewLinesRotateHandler` (lines 83-92): sets `MaxLines`
only; `MaxDays` stays at Go's zero value 0. -/
def NewLinesRotateHandler (fp : String) (lines : Nat) : RotateHandler :=
  { FilePath := fp, MaxLines := lines, curLines := 0, MaxSize := 0, curSize := 0,
    MaxDays := 0, openDate := 0, Rotatable := true }

/-- Embedding of `NewSizeRotateHandler` (lines 94-103): sets `MaxSize`
only; `MaxDays` stays at Go's zero value 0. -/
def NewSizeRotateHandler (fp : String) (size : Nat) : RotateHandler :=
  { FilePath := fp, MaxLines := 0, curLines := 0, MaxSize := size, curSize := 0,
    MaxDays := 0, openDate := 0, Rotatable := true }

/-- Splitting a character list at every occurrence of a 1-character
separator: the embedding of Go `strings.Split` for the separators this
code uses (`"\n"` in `initLogFile`, `"/"` for path components). -/
def splitOnChar (sep : Char) : List Char → List (List Char)
  | [] => [[]]
  | c :: rest =>
    if c = sep then [] :: splitOnChar sep rest
    else
      match splitOnChar sep rest with
      | [] => [[c]]
      | h :: t => (c :: h) :: t

/-- Embedding of Go `strings.Split(s, "\n")` as used by `initLogFile`
line 164. -/
def goSplitNl : List Char → List (List Char) :=
  splitOnChar '\n'

/-- Environment for `Init`/`initLogFile`: outcome of `OpenFile`, `Stat`,
`ReadFile`, the file's content at open time, and `time.Now().Day()`. -/
structure FileEnv where
  openOk : Bool
  statOk : Bool
  readOk : Bool
  content : List Char
  today : Nat
deriving DecidableEq

/-- Embedding of `initLogFile` (lines 151-169): seeds `curSize` from the
stat size, `openDate` from today's day-of-month, and — only for a
non-empty file — `curLines` from `len(strings.Split(content, "\n"))`;
an empty file seeds `curLines = 0`.  A stat or read failure is returned
as an error. -/
def initLogFile (w : RotateHandler) (e : FileEnv) : Except String RotateHandler :=
  if e.statOk = false then Except.error "get stat"
  else
    let w1 := { w with curSize := e.content.length, openDate := e.today }
    if e.content.length > 0 then
      if e.readOk = false then Except.error "read file"
      else Except.ok { w1 with curLines := (goSplitNl e.content).length }
    else Except.ok { w1 with curLines := 0 }

/-- Embedding of `Init` (lines 116-129): panics (modelled as `none`) when
the path is empty, when `createLogFile` fails, or when `initLogFile`
fails; otherwise returns the seeded handler. -/
def Init (w : RotateHandler) (e : FileEnv) : Option RotateHandler :=
  if w.FilePath.length = 0 then none
  else if e.openOk = false then none
  else
    match initLogFile w e with
    | Except.error _ => none
    | Except.ok w1 => some w1

/-- Embedding of Go's `fmt.Sprintf("%03d", n)`: decimal digits of `n`,
zero-padded on the left to a minimum width of 3. -/
def pad3 (n : Nat) : String :=
  if n < 1000 then
    String.mk [Nat.digitChar (n / 100), Nat.digitChar (n / 10 % 10), Nat.digitChar (n % 10)]
  else toString n

/-- The rotated-file name built at line 180:
`FilePath + "." + <date formatted 2006-01-02> + "." + %03d sequence`. -/
def rotName (fp dateStr : String) (n : Nat) : String :=
  fp ++ "." ++ dateStr ++ "." ++ pad3 n

/-- The probing loop of `DoRotate` (lines 177-182): starting at `num`,
while the probed name exists (`taken`) and `num <= 999`, advance.  `fuel`
bounds the recursion; `findFreeNum` supplies enough fuel for the full
1..999 range, mirroring the Go loop bound exactly. -/
def findFreeLoop (taken : Nat → Bool) : Nat → Nat → Option Nat
  | _, 0 => none
  | num, fuel + 1 =>
    if num ≤ 999 then
      if taken num then findFreeLoop taken (num + 1) fuel else some num
    else none

/-- First sequence number in 1..999 whose rotated name does not exist, or
`none` when the whole range is taken (loop of lines 177-186). -/
def findFreeNum (taken : Nat → Bool) : Option Nat :=
  findFreeLoop taken 1 999

/-- The two rotation-failure causes of `DoRotate`: the line-185 naming
exhaustion error and the line-198 rename error. -/
inductive RotErr where
  | exhausted
  | renameFailed
deriving DecidableEq

/-- Environment for `DoRotate`: today's day-of-month, the formatted date
string, whether `Lstat(FilePath)` succeeds (live file exists), which
rotated sequence numbers already have an existing file, whether
`os.Rename` succeeds, and whether the re-`Init` after a successful rename
succeeds (it panics otherwise). -/
structure RotEnv where
  today : Nat
  dateStr : String
  liveExists : Bool
  taken : Nat → Bool
  renameOk : Bool
  reopenOk : Bool

/-- Observable outcome of `DoRotate`: the updated handler state, whether
the sink's descriptor is open afterwards, the name the live file was
renamed to (if a rename happened), the returned error, whether the nested
`Init` panicked, and whether the background `deleteOldLog` sweep was
launched. -/
structure RotOutcome where
  w : RotateHandler
  fdOpen : Bool
  renamedTo : Option String
  err : Option RotErr
  panicked : Bool
  sweepLaunched : Bool
deriving DecidableEq

/-- Embedding of `DoRotate` (lines 173-208).  `fdOpen` is the descriptor
state on entry.  If the live file is absent the call is a no-op success.
Otherwise the free-name probe runs; exhaustion returns an error with the
descriptor untouched.  On a found name the descriptor is closed *before*
the rename (line 193), so a rename failure leaves it closed.  On rename
success, `Init` reopens a fresh empty file (counters reseeded to zero,
`openDate` to today) and the retention sweep is launched. -/
def DoRotate (w : RotateHandler) (e : RotEnv) (fdOpen : Bool) : RotOutcome :=
  if e.liveExists = false then
    { w := w, fdOpen := fdOpen, renamedTo := none, err := none,
      panicked := false, sweepLaunched := false }
  else
    match findFreeNum e.taken with
    | none =>
      { w := w, fdOpen := fdOpen, renamedTo := none, err := some RotErr.exhausted,
        panicked := false, sweepLaunched := false }
    | some n =>
      if e.renameOk = false then
        { w := w, fdOpen := false, renamedTo := none, err := some RotErr.renameFailed,
          panicked := false, sweepLaunched := false }
      else if e.reopenOk = false then
        { w := w, fdOpen := false, renamedTo := some (rotName w.FilePath e.dateStr n),
          err := none, panicked := true, sweepLaunched := false }
      else
        { w := { w with curLines := 0, curSize := 0, openDate := e.today },
          fdOpen := true, renamedTo := some (rotName w.FilePath e.dateStr n),
          err := none, panicked := false, sweepLaunched := true }

/-- The rotation condition of line 134-136: `Rotatable` and (line
threshold hit, or size threshold hit, or the calendar day differs from
the day recorded at open).  The day-difference disjunct carries no
mode guard in the source. -/
def shouldRotate (w : RotateHandler) (today : Nat) : Bool :=
  w.Rotatable &&
    ((decide (w.MaxLines > 0) && decide (w.curLines ≥ w.MaxLines)) ||
     (decide (w.MaxSize > 0) && decide (w.curSize ≥ w.MaxSize)) ||
     decide (today ≠ w.openDate))

/-- Observable outcome of `doCheckRotate`: handler state, descriptor
state, the rename target if any, what (if anything) was printed to
stderr, and whether the nested `Init` panicked. -/
structure CheckOutcome where
  w : RotateHandler
  fdOpen : Bool
  renamedTo : Option String
  stderrReport : Option RotErr
  panicked : Bool
deriving DecidableEq

/-- Embedding of `doCheckRotate` (lines 131-144): under the state lock,
if the rotation condition holds, run `DoRotate`; a rotation error is
printed to stderr and the function returns *early*, skipping the counter
update.  Otherwise `curLines` is incremented by 1 and `curSize` by the
payload length. -/
def doCheckRotate (w : RotateHandler) (size : Nat) (e : RotEnv) (fdOpen : Bool) :
    CheckOutcome :=
  if shouldRotate w e.today then
    let r := DoRotate w e fdOpen
    if r.panicked then
      { w := r.w, fdOpen := r.fdOpen, renamedTo := r.renamedTo,
        stderrReport := none, panicked := true }
    else
      match r.err with
      | some er =>
        { w := r.w, fdOpen := r.fdOpen, renamedTo := r.renamedTo,
          stderrReport := some er, panicked := false }
      | none =>
        { w := { r.w with curLines := r.w.curLines + 1, curSize := r.w.curSize + size },
          fdOpen := r.fdOpen, renamedTo := r.renamedTo,
          stderrReport := none, panicked := false }
  else
    { w := { w with curLines := w.curLines + 1, curSize := w.curSize + size },
      fdOpen := fdOpen, renamedTo := none, stderrReport := none, panicked := false }

/-- Embedding of `RotateHandler.Write` (lines 106-114): `length` is taken
from the payload, `doCheckRotate` runs, then `mw.Write` appends;
`underlying` is the `(n, err)` pair the underlying `os.File.Write`
returns.  The written count from the file is *discarded* (`_, err :=`)
and `length` is returned together with the file's error. -/
def RotateHandler.Write (w : RotateHandler) (data : List Char) (e : RotEnv)
    (fdOpen : Bool) (underlying : Nat × Option String) :
    (Nat × Option String) × CheckOutcome :=
  let c := doCheckRotate w data.length e fdOpen
  ((data.length, underlying.2), c)

/-- One directory entry as seen by the `filepath.Walk` callback in
`deleteOldLog`: its base name, whether it is a directory, its
modification time (Unix seconds), whether the walk's `lstat` of it
succeeded (on failure the callback receives a nil `FileInfo`), and
whether `os.Remove` on it would succeed. -/
structure Entry where
  base : String
  isDir : Bool
  modTime : Int
  statOk : Bool
  removeOk : Bool
deriving DecidableEq

/-- Embedding of Go `filepath.Base`: strip trailing separators and take
the last path component; empty path gives ".", all-separator path "/". -/
def baseName (p : String) : String :=
  if p = "" then "."
  else
    match ((splitOnChar '/' p.data).filter (fun s => s ≠ [])).reverse with
    | [] => "/"
    | b :: _ => String.mk b

/-- The deletion test of lines 219-221: not a directory, modification
time strictly older than `now - 60*60*24*MaxDays` seconds, and base name
starting with the live file's base name (`strings.HasPrefix`, embedded
as character-list prefix). -/
def entryQualifies (pre : String) (maxDays : Nat) (now : Int) (ent : Entry) : Bool :=
  !ent.isDir && decide (ent.modTime < now - 60 * 60 * 24 * (maxDays : Int)) &&
    pre.data.isPrefixOf ent.base.data

/-- Embedding of the `filepath.Walk` over the callback of lines 212-225,
applied to the entries in walk order.  An entry whose lstat failed makes
the callback dereference a nil `FileInfo`, panic, and recover into a
non-nil returned error, which makes `filepath.Walk` stop: the rest of
the entries are not visited (second component `true`).  For a stat-ok
entry, the file is removed when it qualifies and `os.Remove` succeeds;
a remove failure is ignored and the walk continues.  Returns the list of
deleted base names and whether the walk was aborted. -/
def walkSweep (pre : String) (maxDays : Nat) (now : Int) :
    List Entry → List String × Bool
  | [] => ([], false)
  | ent :: rest =>
    if ent.statOk = false then ([], true)
    else
      let r := walkSweep pre maxDays now rest
      (if entryQualifies pre maxDays now ent && ent.removeOk
       then ent.base :: r.1 else r.1, r.2)

/-- Embedding of `deleteOldLog` (lines 210-226): walk the live file's
directory and delete old prefix-matching files; the error `filepath.Walk`
may return is discarded, so only the deleted set is observable. -/
def deleteOldLog (w : RotateHandler) (now : Int) (entries : List Entry) : List String :=
  (walkSweep (baseName w.FilePath) w.MaxDays now entries).1

/-! ### Auxiliary lemmas -/

lemma splitOnChar_ne_nil (sep : Char) (s : List Char) : splitOnChar sep s ≠ [] := by
  cases s with
  | nil => simp [splitOnChar]
  | cons c rest =>
    simp only [splitOnChar]
    split
    · simp
    · split <;> simp

/-- Splitting on a separator returns one more chunk than there are
separator occurrences. -/
lemma splitOnChar_length (sep : Char) (s : List Char) :
    (splitOnChar sep s).length = s.count sep + 1 := by
  induction s with
  | nil => simp [splitOnChar]
  | cons c rest ih =>
    simp only [splitOnChar]
    by_cases hc : c = sep
    · subst hc
      simp [List.count_cons, ih]
    · rw [if_neg hc]
      cases h : splitOnChar sep rest with
      | nil => exact absurd h (splitOnChar_ne_nil sep rest)
      | cons hh tt =>
        rw [h] at ih
        simp only [List.length_cons] at ih ⊢
        rw [List.count_cons]
        simp only [beq_iff_eq, hc, if_false]
        omega

/-- Go's `strings.Split(s, "\n")` returns one more chunk than there are
newline characters in `s`. -/
lemma goSplitNl_length (s : List Char) : (goSplitNl s).length = s.count '\n' + 1 :=
  splitOnChar_length '\n' s

lemma findFreeLoop_some_spec (taken : Nat → Bool) :
    ∀ (fuel num n : Nat), findFreeLoop taken num fuel = some n →
      taken n = false ∧ num ≤ n ∧ n ≤ 999 ∧ ∀ m, num ≤ m → m < n → taken m = true := by
  intro fuel
  induction fuel with
  | zero => intro num n h; simp [findFreeLoop] at h
  | succ fuel ih =>
    intro num n h
    simp only [findFreeLoop] at h
    by_cases h999 : num ≤ 999
    · rw [if_pos h999] at h
      by_cases ht : taken num = true
      · rw [if_pos ht] at h
        obtain ⟨h1, h2, h3, h4⟩ := ih (num + 1) n h
        refine ⟨h1, by omega, h3, ?_⟩
        intro m hm1 hm2
        rcases Nat.eq_or_lt_of_le hm1 with he | hl
        · rw [← he]; exact ht
        · exact h4 m (by omega) hm2
      · rw [if_neg ht] at h
        obtain rfl : num = n := by injection h
        exact ⟨by simpa using ht, le_refl _, h999,
               fun m hm1 hm2 => absurd hm2 (by omega)⟩
    · rw [if_neg h999] at h
      cases h

lemma findFreeLoop_none_of_all (taken : Nat → Bool) :
    ∀ (fuel num : Nat), (∀ m, num ≤ m → m ≤ 999 → taken m = true) →
      findFreeLoop taken num fuel = none := by
  intro fuel
  induction fuel with
  | zero => intro num _; rfl
  | succ fuel ih =>
    intro num h
    simp only [findFreeLoop]
    by_cases h999 : num ≤ 999
    · rw [if_pos h999, if_pos (h num le_rfl h999)]
      exact ih (num + 1) (fun m hm1 hm2 => h m (by omega) hm2)
    · rw [if_neg h999]

/-- The chosen rotation sequence number is the least free one in 1..999. -/
lemma findFreeNum_some_spec (taken : Nat → Bool) (n : Nat)
    (h : findFreeNum taken = some n) :
    taken n = false ∧ 1 ≤ n ∧ n ≤ 999 ∧ ∀ m, 1 ≤ m → m < n → taken m = true :=
  findFreeLoop_some_spec taken 999 1 n h

lemma findFreeNum_none_of_all (taken : Nat → Bool)
    (h : ∀ m, 1 ≤ m → m ≤ 999 → taken m = true) : findFreeNum taken = none :=
  findFreeLoop_none_of_all taken 999 1 h

lemma pad3_length (n : Nat) (h : n ≤ 999) : (pad3 n).length = 3 := by
  rw [pad3, if_pos (by omega : n < 1000)]
  rfl

/-- A walk over entries whose lstat all succeeded and whose removal all
succeeds deletes exactly the qualifying entries and is not aborted. -/
lemma walkSweep_clean (pre : String) (d : Nat) (now : Int) :
    ∀ entries : List Entry, (∀ ent ∈ entries, ent.statOk = true) →
      (∀ ent ∈ entries, ent.removeOk = true) →
      walkSweep pre d now entries =
        ((entries.filter (entryQualifies pre d now)).map Entry.base, false) := by
  intro entries
  induction entries with
  | nil => intro _ _; rfl
  | cons ent rest ih =>
    intro hstat hrm
    have hs : ent.statOk = true := hstat ent (List.mem_cons_self ent rest)
    have hr : ent.removeOk = true := hrm ent (List.mem_cons_self ent rest)
    simp only [walkSweep]
    rw [if_neg (by simp [hs])]
    rw [ih (fun x hx => hstat x (List.mem_cons_of_mem ent hx))
           (fun x hx => hrm x (List.mem_cons_of_mem ent hx))]
    rw [List.filter_cons]
    by_cases hq : entryQualifies pre d now ent = true
    · simp [hq, hr]
    · simp [hq, Bool.and_eq_true]

/-- Closed form for `Init`: `none` exactly on the fatal conditions,
otherwise the handler with the seeded counters. -/
lemma Init_eq (w : RotateHandler) (e : FileEnv) :
    Init w e =
      if w.FilePath.length = 0 ∨ e.openOk = false ∨ e.statOk = false ∨
          (e.content.length > 0 ∧ e.readOk = false) then none
      else some { w with
                  curSize := e.content.length, openDate := e.today,
                  curLines := if e.content.length > 0 then e.content.count '\n' + 1 else 0 } := by
  rw [Init, initLogFile]
  by_cases hp : w.FilePath.length = 0
  · simp [hp]
  by_cases ho : e.openOk = false
  · simp [hp, ho]
  by_cases hs : e.statOk = false
  · simp [hp, ho, hs]
  by_cases hc : e.content.length > 0
  · by_cases hr : e.readOk = false
    · simp [hp, ho, hs, hc, hr]
    · simp [hp, ho, hs, hc, hr, goSplitNl_length]
  · simp [hp, ho, hs, hc]

lemma DoRotate_MaxDays (w : RotateHandler) (e : RotEnv) (fd : Bool) :
    (DoRotate w e fd).w.MaxDays = w.MaxDays := by
  rw [DoRotate]
  split
  · rfl
  · split
    · rfl
    · split
      · rfl
      · split <;> rfl

lemma doCheckRotate_MaxDays (w : RotateHandler) (size : Nat) (e : RotEnv) (fd : Bool) :
    (doCheckRotate w size e fd).w.MaxDays = w.MaxDays := by
  simp only [doCheckRotate]
  split
  · split
    · exact DoRotate_MaxDays w e fd
    · split
      · exact DoRotate_MaxDays w e fd
      · simpa using DoRotate_MaxDays w e fd
  · rfl

/-- A walk hitting a stat-failed entry deletes only what the prefix of
stat-ok entries before it yields, and is aborted. -/
lemma walkSweep_abort (pre : String) (d : Nat) (now : Int) (bad : Entry)
    (rest : List Entry) (hbad : bad.statOk = false) :
    ∀ good : List Entry, (∀ ent ∈ good, ent.statOk = true) →
      walkSweep pre d now (good ++ bad :: rest) =
        ((walkSweep pre d now good).1, true) := by
  intro good
  induction good with
  | nil =>
    intro _
    simp only [List.nil_append, walkSweep]
    rw [if_pos hbad]
  | cons g gs ih =>
    intro hgood
    have hs : g.statOk = true := hgood g (List.mem_cons_self g gs)
    simp only [List.cons_append, walkSweep, List.append_eq]
    rw [ih (fun x hx => hgood x (List.mem_cons_of_mem g hx))]
    simp [hs]

/-! ### Concrete instances used by witnesses and counterexamples -/

/-- The handler obtained by `Init`-ing a fresh size-mode handler
(threshold 100) against an absent/empty file on day-of-month 1. -/
def sizeHandlerDay1 : RotateHandler :=
  { NewSizeRotateHandler "a.log" 100 with openDate := 1 }

/-- Rotation environment on day 2 where every rotated name 1..999
already exists: the naming probe exhausts. -/
def exhaustEnv : RotEnv :=
  ⟨2, "2014-01-02", true, fun _ => true, true, true⟩

/-- Rotation environment on day 2 where the first rotated name is free
but the rename fails. -/
def renameFailEnv : RotEnv :=
  ⟨2, "2014-01-02", true, fun _ => false, false, true⟩

/-- Rotation environment on day 2 where rotation fully succeeds. -/
def rotSuccessEnv : RotEnv :=
  ⟨2, "2014-01-02", true, fun _ => false, true, true⟩

/-- Rotation environment where sequence numbers 1 and 2 are taken and 3
is the first free one. -/
def probeEnv : RotEnv :=
  ⟨2, "2014-01-02", true, fun n => decide (n < 3), true, true⟩

/-- A daily handler with a 30-day retention window. -/
def monthHandler : RotateHandler := NewDailyRotateHandler "a.log" 30

/-- A directory entry whose lstat fails during the walk. -/
def badEntry : Entry := ⟨"a.log.2014-01-01.001", false, 0, false, true⟩

/-- A prefix-matching regular file old enough to qualify for deletion. -/
def oldEntry : Entry := ⟨"a.log.2014-01-02.001", false, 50, true, true⟩

/-- Sweep timestamp: 40 days plus 50 seconds, in Unix seconds. -/
def sweepNow : Int := 3456050

/-- Rotated file aged 1 day at `sweepNow`. -/
def freshEntry : Entry := ⟨"a.log.2014-02-01.001", false, 3369650, true, true⟩

/-- Rotated file aged 10 days at `sweepNow`. -/
def midEntry : Entry := ⟨"a.log.2014-01-20.001", false, 2592050, true, true⟩

/-- Rotated file aged 40 days at `sweepNow`. -/
def ancientEntry : Entry := ⟨"a.log.2013-12-25.001", false, 50, true, true⟩

/-- A very old regular file whose name does not match the prefix. -/
def otherEntry : Entry := ⟨"b.log", false, 0, true, true⟩

/-! ### Claims -/

/-- C1 (counterexample): a size-mode handler (threshold 100) seeded by
`Init` on day 1 with an empty file has byte count 0, yet the rotation
condition already holds on day 2 — a calendar-day change alone triggers
rotation for a size-mode instance, contradicting the claim that only
`pre-write bytes >= S` can. -/
theorem C1_counterexample :
    Init (NewSizeRotateHandler "a.log" 100) ⟨true, true, true, [], 1⟩ = some sizeHandlerDay1 ∧
    sizeHandlerDay1.curSize = 0 ∧
    shouldRotate sizeHandlerDay1 2 = true := by decide

/-- C1 (amended): for a handler in byte-size mode (positive size
threshold, zero line threshold, rotation enabled), the rotation
condition evaluated before a write holds exactly when the pre-write
cumulative byte count has reached the threshold *or* the current
calendar day differs from the day recorded at open: the day-change
disjunct of `doCheckRotate` carries no mode guard in the source, so it
fires for size-mode instances as well. -/
theorem C1_size_mode_rotation (w : RotateHandler) (S today : Nat)
    (hS : 0 < S) (hml : w.MaxLines = 0) (hms : w.MaxSize = S)
    (hrot : w.Rotatable = true) :
    shouldRotate w today = true ↔ (S ≤ w.curSize ∨ today ≠ w.openDate) := by
  simp [shouldRotate, hml, hms, hrot, hS]

/-- C1 (witness): the amended statement applied to the concrete day-1
handler: on day 2 the condition holds although `curSize = 0 < 100`. -/
theorem C1_size_mode_rotation_witness :
    shouldRotate sizeHandlerDay1 2 = true :=
  (C1_size_mode_rotation sizeHandlerDay1 100 2 (by decide) rfl rfl rfl).mpr
    (Or.inr (by decide))

/-- C3 (counterexample): seeding against the pre-existing 3-byte file
"a\nb", which contains exactly one line separator, seeds the line count
to 2 — the separator count plus one — not to the separator count 1. -/
theorem C3_counterexample :
    (initLogFile (NewDefaultHandler "a.log") ⟨true, true, true, ['a', '\n', 'b'], 1⟩).toOption.map
        RotateHandler.curLines = some 2 ∧
    (['a', '\n', 'b'].count '\n') = 1 := by decide

/-- C3 (amended): successful initialization seeds the byte count to the
file size and, for a non-empty file, the line count to the number of
line-separator occurrences *plus one* (the chunk count of Go's
`strings.Split` on `"\n"`); for an empty or absent file both counters
are seeded to zero. -/
theorem C3_init_seeding (w : RotateHandler) (e : FileEnv)
    (hp : w.FilePath.length ≠ 0) (ho : e.openOk = true)
    (hs : e.statOk = true) (hr : e.readOk = true) :
    Init w e = some { w with
                      curSize := e.content.length, openDate := e.today,
                      curLines := if e.content.length > 0 then e.content.count '\n' + 1 else 0 } := by
  rw [Init_eq, if_neg (by simp [hp, ho, hs, hr])]

/-- C3 (witness): seeding against the 3-byte file "hi\n" gives byte
count 3 and line count 2. -/
theorem C3_init_seeding_witness :
    Init (NewDefaultHandler "a.log") ⟨true, true, true, ['h', 'i', '\n'], 5⟩ =
      some { NewDefaultHandler "a.log" with curSize := 3, openDate := 5, curLines := 2 } := by
  rw [C3_init_seeding (NewDefaultHandler "a.log") ⟨true, true, true, ['h', 'i', '\n'], 5⟩
    (by decide) rfl rfl rfl]
  decide

/-- C8 (counterexample): with a 5-byte payload and an underlying file
write that reports only 2 bytes actually written together with an error,
`Write` still returns count 5 — the count the caller sees is the request
length, not the number of bytes actually written. -/
theorem C8_counterexample :
    (RotateHandler.Write (NewDefaultHandler "a.log") ['h', 'e', 'l', 'l', 'o']
        exhaustEnv true (2, some "disk full")).1 = (5, some "disk full") ∧
    (RotateHandler.Write (NewDefaultHandler "a.log") ['h', 'e', 'l', 'l', 'o']
        exhaustEnv true (2, some "disk full")).1.1 ≠ 2 := by decide

/-- C8 (amended): `Write` returns the pair `(len(b), err)` where `err`
is the underlying file append's error propagated verbatim with no retry;
the returned count is always the request length `len(b)` (which equals
the bytes actually written only when the underlying append completed
fully — the count the file reports is discarded). -/
theorem C8_write_result (w : RotateHandler) (data : List Char) (e : RotEnv)
    (fd : Bool) (u : Nat × Option String) :
    (RotateHandler.Write w data e fd u).1 = (data.length, u.2) := rfl

/-- C9 (confirmed): `Init` aborts (panics) exactly when the configured
path is empty, the open/create of the target file fails, or seeding from
the opened file fails (stat failure, or read failure on a non-empty
file); on success it returns the handler with the state seeded from the
file. -/
theorem C9_init_fatal (w : RotateHandler) (e : FileEnv) :
    (Init w e = none ↔
      (w.FilePath.length = 0 ∨ e.openOk = false ∨ e.statOk = false ∨
        (e.content.length > 0 ∧ e.readOk = false))) ∧
    (∀ w1, Init w e = some w1 →
      w1.curSize = e.content.length ∧ w1.openDate = e.today ∧
      w1.curLines = if e.content.length > 0 then e.content.count '\n' + 1 else 0) := by
  rw [Init_eq]
  constructor
  · split
    · simp_all
    · simp_all
  · intro w1 h1
    split at h1
    · cases h1
    · injection h1 with h1
      subst h1
      simp

/-- C9 (witness): the empty path is fatal, and a successful `Init`
against the file "hi\n" seeds size 3 and line count 2. -/
theorem C9_init_fatal_witness :
    Init (NewDefaultHandler "") ⟨true, true, true, [], 1⟩ = none ∧
    Init (NewDefaultHandler "a.log") ⟨true, true, true, ['h', 'i', '\n'], 5⟩ ≠ none := by
  constructor
  · exact (C9_init_fatal (NewDefaultHandler "") ⟨true, true, true, [], 1⟩).1.mpr
      (Or.inl rfl)
  · intro h
    exact absurd ((C9_init_fatal (NewDefaultHandler "a.log")
      ⟨true, true, true, ['h', 'i', '\n'], 5⟩).1.mp h) (by decide)

/-- C2 (counterexample): when a due rotation finds a free name but the
rename fails, the failure is reported to stderr — yet the descriptor is
*not* still open afterwards: `DoRotate` closed it before attempting the
rename, so the triggering write targets a closed descriptor. -/
theorem C2_counterexample :
    (doCheckRotate sizeHandlerDay1 5 renameFailEnv true).stderrReport =
      some RotErr.renameFailed ∧
    (doCheckRotate sizeHandlerDay1 5 renameFailEnv true).fdOpen = false := by decide

/-- C2 (amended): a failed rotation attempt is reported only to stderr
and the caller of `Write` never receives the rotation error — the error
`Write` returns is exactly the underlying append's own error.  On
naming-sequence exhaustion the pre-rotation descriptor is still open and
the write proceeds against it with the state unchanged; but on rename
failure the descriptor was already closed before the rename, so the
triggering write is issued against a closed descriptor. -/
theorem C2_rotation_failure (w : RotateHandler) (e : RotEnv) (data : List Char)
    (u : Nat × Option String) (hdue : shouldRotate w e.today = true)
    (hlive : e.liveExists = true) :
    ((RotateHandler.Write w data e true u).1 = (data.length, u.2)) ∧
    (findFreeNum e.taken = none →
      (doCheckRotate w data.length e true).stderrReport = some RotErr.exhausted ∧
      (doCheckRotate w data.length e true).fdOpen = true ∧
      (doCheckRotate w data.length e true).w = w) ∧
    (∀ n, findFreeNum e.taken = some n → e.renameOk = false →
      (doCheckRotate w data.length e true).stderrReport = some RotErr.renameFailed ∧
      (doCheckRotate w data.length e true).fdOpen = false) := by
  refine ⟨rfl, ?_, ?_⟩
  · intro hnone
    simp [doCheckRotate, DoRotate, hdue, hlive, hnone]
  · intro n hn hrn
    simp [doCheckRotate, DoRotate, hdue, hlive, hn, hrn]

/-- C2 (witness): the amended statement at the concrete exhaustion
scenario: the error is reported on stderr and the descriptor stays
open. -/
theorem C2_rotation_failure_witness :
    (doCheckRotate sizeHandlerDay1 5 exhaustEnv true).stderrReport =
      some RotErr.exhausted ∧
    (doCheckRotate sizeHandlerDay1 5 exhaustEnv true).fdOpen = true := by
  have h := (C2_rotation_failure sizeHandlerDay1 exhaustEnv ['a', 'b', 'c', 'd', 'e']
    (5, none) (by decide) rfl).2.1 (by decide)
  exact ⟨h.1, h.2.1⟩

/-- C4 (counterexample): on a write that triggers a rotation attempt
which fails (naming exhaustion here), `doCheckRotate` returns early:
neither the line counter nor the byte counter is incremented, although
the write itself still proceeds. -/
theorem C4_counterexample :
    (doCheckRotate sizeHandlerDay1 5 exhaustEnv true).w.curLines ≠
      sizeHandlerDay1.curLines + 1 ∧
    (doCheckRotate sizeHandlerDay1 5 exhaustEnv true).w.curSize ≠
      sizeHandlerDay1.curSize + 5 := by decide

/-- C4 (amended): on every write whose rotation attempt does not fail
(no rotation needed, a no-op rotation, or a successful one), the line
counter rises by exactly 1 and the byte counter by exactly the payload
length — counted from the reseeded zero counters when a rotation renamed
the file; but on a write whose rotation attempt fails, the early return
leaves both counters untouched. -/
theorem C4_counter_update (w : RotateHandler) (size : Nat) (e : RotEnv) (fd : Bool)
    (hp : (doCheckRotate w size e fd).panicked = false) :
    ((doCheckRotate w size e fd).stderrReport = none →
      (doCheckRotate w size e fd).w.curLines =
        (if (doCheckRotate w size e fd).renamedTo.isSome = true then 0 else w.curLines) + 1 ∧
      (doCheckRotate w size e fd).w.curSize =
        (if (doCheckRotate w size e fd).renamedTo.isSome = true then 0 else w.curSize) + size) ∧
    ((doCheckRotate w size e fd).stderrReport ≠ none →
      (doCheckRotate w size e fd).w = w) := by
  by_cases hdue : shouldRotate w e.today = true
  · by_cases hlive : e.liveExists = true
    · cases hn : findFreeNum e.taken with
      | none => simp [doCheckRotate, DoRotate, hdue, hlive, hn]
      | some n =>
        by_cases hrn : e.renameOk = true
        · by_cases hro : e.reopenOk = true
          · simp [doCheckRotate, DoRotate, hdue, hlive, hn, hrn, hro]
          · rw [Bool.not_eq_true] at hro
            exfalso
            simp [doCheckRotate, DoRotate, hdue, hlive, hn, hrn, hro] at hp
        · rw [Bool.not_eq_true] at hrn
          simp [doCheckRotate, DoRotate, hdue, hlive, hn, hrn]
    · rw [Bool.not_eq_true] at hlive
      simp [doCheckRotate, DoRotate, hdue, hlive]
  · simp [doCheckRotate, hdue]

/-- C4 (witness): the amended statement at a concrete successful
rotation: a 5-byte write leaves the fresh file's counters at exactly
1 line and 5 bytes. -/
theorem C4_counter_update_witness :
    (doCheckRotate sizeHandlerDay1 5 rotSuccessEnv true).w.curLines = 1 ∧
    (doCheckRotate sizeHandlerDay1 5 rotSuccessEnv true).w.curSize = 5 := by
  have h := (C4_counter_update sizeHandlerDay1 5 rotSuccessEnv true (by decide)).1 (by decide)
  constructor
  · rw [h.1]; decide
  · rw [h.2]; decide

/-- C5 (confirmed): when the live file exists, a successful probe picks
the *least* free sequence number `n` in 1..999 (every smaller one is
taken), the rotated name is `FilePath + "." + date + "." + %03d n`
with a 3-character zero-padded sequence field, and that name does not
belong to an existing file, so no rotation overwrites one; when all of
1..999 are taken, `DoRotate` fails with the exhaustion error and renames
nothing. -/
theorem C5_rotated_naming (w : RotateHandler) (e : RotEnv) (fd : Bool)
    (hlive : e.liveExists = true) :
    (∀ n, findFreeNum e.taken = some n →
      1 ≤ n ∧ n ≤ 999 ∧ e.taken n = false ∧ (pad3 n).length = 3 ∧
      (∀ m, 1 ≤ m → m < n → e.taken m = true) ∧
      (e.renameOk = true →
        (DoRotate w e fd).renamedTo =
          some (w.FilePath ++ "." ++ e.dateStr ++ "." ++ pad3 n))) ∧
    ((∀ m, 1 ≤ m → m ≤ 999 → e.taken m = true) →
      (DoRotate w e fd).err = some RotErr.exhausted ∧
      (DoRotate w e fd).renamedTo = none) := by
  constructor
  · intro n hn
    obtain ⟨h1, h2, h3, h4⟩ := findFreeNum_some_spec e.taken n hn
    refine ⟨h2, h3, h1, pad3_length n h3, h4, ?_⟩
    intro hrn
    by_cases hro : e.reopenOk = true
    · simp [DoRotate, hlive, hn, hrn, hro, rotName]
    · rw [Bool.not_eq_true] at hro
      simp [DoRotate, hlive, hn, hrn, hro, rotName]
  · intro hall
    have hnone := findFreeNum_none_of_all e.taken hall
    simp [DoRotate, hlive, hnone]

/-- C5 (witness): with sequence numbers 1 and 2 taken, rotation on
2014-01-02 renames the live file to `a.log.2014-01-02.003`. -/
theorem C5_rotated_naming_witness :
    (DoRotate sizeHandlerDay1 probeEnv true).renamedTo =
      some "a.log.2014-01-02.003" := by
  have h := ((C5_rotated_naming sizeHandlerDay1 probeEnv true rfl).1 3
    (by decide)).2.2.2.2.2 rfl
  rw [h]; decide

/-- C6 (counterexample): a qualifying old file listed *after* an entry
whose lstat fails is not deleted: the per-entry failure is not converted
into skipping that entry only, it aborts the rest of the walk. -/
theorem C6_counterexample :
    entryQualifies (baseName monthHandler.FilePath) monthHandler.MaxDays sweepNow
      oldEntry = true ∧
    deleteOldLog monthHandler sweepNow [badEntry, oldEntry] = [] := by decide

/-- C6 (amended): a per-entry *delete* failure is skipped silently and
the walk continues, but a per-entry *stat* failure hands the callback a
nil `FileInfo`; the resulting panic is recovered into a non-nil callback
error, which makes `filepath.Walk` abort the remainder of the walk —
entries after the failing one are not visited.  The error still never
propagates out of the sweep: `deleteOldLog` discards `Walk`'s result. -/
theorem C6_sweep_abort (w : RotateHandler) (now : Int) (good : List Entry)
    (bad : Entry) (rest : List Entry)
    (hgood : ∀ ent ∈ good, ent.statOk = true) (hbad : bad.statOk = false) :
    deleteOldLog w now (good ++ bad :: rest) = deleteOldLog w now good ∧
    (walkSweep (baseName w.FilePath) w.MaxDays now (good ++ bad :: rest)).2 = true := by
  have h := walkSweep_abort (baseName w.FilePath) w.MaxDays now bad rest hbad good hgood
  constructor
  · rw [deleteOldLog, deleteOldLog, h]
  · rw [h]

/-- C6 (witness): the amended statement at the concrete two-entry walk:
the sweep result is exactly that of the walk prefix before the failing
entry (here: nothing), and the walk was aborted. -/
theorem C6_sweep_abort_witness :
    deleteOldLog monthHandler sweepNow ([] ++ badEntry :: [oldEntry]) =
      deleteOldLog monthHandler sweepNow [] ∧
    (walkSweep (baseName monthHandler.FilePath) monthHandler.MaxDays sweepNow
      ([] ++ badEntry :: [oldEntry])).2 = true :=
  C6_sweep_abort monthHandler sweepNow [] badEntry [oldEntry]
    (by intro ent h; cases h) rfl

/-- C7 (confirmed): on a sweep in which every entry's lstat succeeds and
every attempted removal succeeds, the deleted entries are exactly the
non-directory entries whose base name starts with the live file's base
name and whose modification time is strictly older than `now` minus the
retention age in days; in particular an entry without the matching
prefix is never deleted, however old. -/
theorem C7_sweep_selection (w : RotateHandler) (now : Int) (entries : List Entry)
    (hstat : ∀ ent ∈ entries, ent.statOk = true)
    (hrm : ∀ ent ∈ entries, ent.removeOk = true) :
    deleteOldLog w now entries =
      (entries.filter (fun ent => !ent.isDir &&
        decide (ent.modTime < now - 60 * 60 * 24 * (w.MaxDays : Int)) &&
        (baseName w.FilePath).data.isPrefixOf ent.base.data)).map Entry.base := by
  rw [deleteOldLog, walkSweep_clean _ _ _ entries hstat hrm]
  rfl

/-- C7 (witness): the spec's retention scenario — prefix-matching files
aged 1, 10 and 40 days plus an old non-matching file, 30-day window —
deletes exactly the 40-day file. -/
theorem C7_sweep_selection_witness :
    deleteOldLog monthHandler sweepNow [freshEntry, midEntry, ancientEntry, otherEntry] =
      ["a.log.2013-12-25.001"] := by
  rw [C7_sweep_selection monthHandler sweepNow
    [freshEntry, midEntry, ancientEntry, otherEntry] (by decide) (by decide)]
  decide

/-- C10 (confirmed): the line-count and byte-size constructors leave
`MaxDays` at Go's zero value 0, and neither seeding nor the rotation
path ever changes `MaxDays`; consequently the sweep run after a rotation
of such a handler uses a zero-day window and (on a clean walk) deletes
*every* prefix-matching non-directory entry whose modification time
precedes the current instant — previously rotated files are not kept for
any retention period. -/
theorem C10_zero_retention (fp : String) (nl ns : Nat) (now : Int)
    (entries : List Entry)
    (hstat : ∀ ent ∈ entries, ent.statOk = true)
    (hrm : ∀ ent ∈ entries, ent.removeOk = true) :
    (NewLinesRotateHandler fp nl).MaxDays = 0 ∧
    (NewSizeRotateHandler fp ns).MaxDays = 0 ∧
    (∀ (w : RotateHandler) (e : FileEnv) (w1 : RotateHandler),
      Init w e = some w1 → w1.MaxDays = w.MaxDays) ∧
    (∀ (w : RotateHandler) (size : Nat) (e : RotEnv) (fd : Bool),
      (doCheckRotate w size e fd).w.MaxDays = w.MaxDays) ∧
    (∀ w : RotateHandler, w.MaxDays = 0 →
      deleteOldLog w now entries =
        (entries.filter (fun ent => !ent.isDir && decide (ent.modTime < now) &&
          (baseName w.FilePath).data.isPrefixOf ent.base.data)).map Entry.base) := by
  refine ⟨rfl, rfl, ?_, doCheckRotate_MaxDays, ?_⟩
  · intro w e w1 h
    rw [Init_eq] at h
    split at h
    · cases h
    · injection h with h
      subst h
      rfl
  · intro w hd
    rw [deleteOldLog, walkSweep_clean _ _ _ entries hstat hrm, hd]
    have hpred : ∀ ent ∈ entries, entryQualifies (baseName w.FilePath) 0 now ent =
        (!ent.isDir && decide (ent.modTime < now) &&
          (baseName w.FilePath).data.isPrefixOf ent.base.data) := by
      intro ent _
      simp [entryQualifies]
    rw [List.filter_congr hpred]

/-- C10 (witness): a size-mode handler's sweep with its zero-day window
deletes a rotated file that is only one day old while leaving an even
older non-matching file alone. -/
theorem C10_zero_retention_witness :
    deleteOldLog (NewSizeRotateHandler "a.log" 100) sweepNow [freshEntry, otherEntry] =
      ["a.log.2014-02-01.001"] := by
  rw [(C10_zero_retention "a.log" 5 100 sweepNow [freshEntry, otherEntry]
    (by decide) (by decide)).2.2.2.2 (NewSizeRotateHandler "a.log" 100) rfl]
  decide

end VLog
